import Mathlib

/-!
Verification development for the AWD open-shipment monitor
(single script `src/main.py`): period resolution into calendar-month
windows, per-shipment aggregation, open/closed classification, and
percentage formatting, shallowly embedded over integers (nanosecond
timestamps, as in pandas) and rationals (quantities).
-/

/-! ## Calendar model

`pandas.Timestamp` values are nanosecond-resolution instants; we model an
instant as an integer count of nanoseconds from an arbitrary fixed origin
(the first instant of year 1 in the proleptic Gregorian calendar).  All
claims are about comparisons and differences of instants, so the choice of
origin is immaterial.  `pd.Timedelta(microseconds=1)` is 1000 of these
units. -/

/-- Proleptic Gregorian leap-year test, as used by `datetime`/pandas. -/
def isLeap (y : ℤ) : Bool := decide ((y % 4 = 0 ∧ y % 100 ≠ 0) ∨ y % 400 = 0)

/-- Days in all years strictly before year `y` (proleptic Gregorian;
`/` on ℤ rounds toward negative infinity for these positive divisors). -/
def daysBeforeYear (y : ℤ) : ℤ :=
  365 * (y - 1) + (y - 1) / 4 - (y - 1) / 100 + (y - 1) / 400

/-- Cumulative day count at the start of month `m` in a non-leap year. -/
def monthCum (m : ℕ) : ℤ :=
  match m with
  | 1 => 0 | 2 => 31 | 3 => 59 | 4 => 90 | 5 => 120 | 6 => 151
  | 7 => 181 | 8 => 212 | 9 => 243 | 10 => 273 | 11 => 304 | 12 => 334
  | _ => 0

/-- Days in the year before the first day of month `m`. -/
def daysBeforeMonth (leap : Bool) (m : ℕ) : ℤ :=
  monthCum m + (if 3 ≤ m ∧ leap = true then 1 else 0)

/-- A calendar year/month pair (`m` ranges over 1..12). -/
structure YM where
  y : ℤ
  m : ℕ
deriving DecidableEq, Repr

/-- `1 ≤ m ≤ 12`: the months produced by `datetime`. -/
def YM.valid (p : YM) : Prop := 1 ≤ p.m ∧ p.m ≤ 12

instance (p : YM) : Decidable p.valid := by unfold YM.valid; infer_instance

/-- The month after `p`: the source's explicit branch
`if month == 12 then (year+1, 1) else (year, month+1)`
(`src/main.py` lines 77-80 and 115-118). -/
def nextMonthStart (p : YM) : YM :=
  if p.m = 12 then ⟨p.y + 1, 1⟩ else ⟨p.y, p.m + 1⟩

/-- The month before `p`: `timestamp - pd.DateOffset(months=1)` applied to a
first-of-month timestamp (`src/main.py` lines 122, 126). -/
def prevMonth (p : YM) : YM :=
  if p.m = 1 then ⟨p.y - 1, 12⟩ else ⟨p.y, p.m - 1⟩

/-- Number of days of month `p` (Gregorian). -/
def daysInMonth (p : YM) : ℤ :=
  match p.m with
  | 2 => if isLeap p.y then 29 else 28
  | 4 => 30 | 6 => 30 | 9 => 30 | 11 => 30
  | _ => 31

/-- Nanoseconds in one day. -/
def nsPerDay : ℤ := 86400000000000

/-- The first instant of month `p` (midnight of day 1), in nanoseconds:
the value of `date.replace(day=1, hour=0, minute=0, second=0,
microsecond=0)` for any `date` inside month `p`. -/
def monthStartNano (p : YM) : ℤ :=
  nsPerDay * (daysBeforeYear p.y + daysBeforeMonth (isLeap p.y) p.m)

/-- `get_month_start_end` (`src/main.py` lines 74-82): given a date in
month `p`, returns the first instant of the month and the first instant of
the next month minus `pd.Timedelta(microseconds=1)` (= 1000 ns). -/
def get_month_start_end (p : YM) : ℤ × ℤ :=
  (monthStartNano p, monthStartNano (nextMonthStart p) - 1000)

/-- A period window as passed to `calculate_metrics`: a start and end
instant (the source applies the mask `start_date <= d <= end_date`). -/
structure Window where
  start_date : ℤ
  end_date : ℤ
deriving DecidableEq, Repr

/-- The three windows computed in `main` (`src/main.py` lines 111-127)
from the current date's year/month `p`:
current month `[current_month_start, next_month - 1µs]`,
last month `[last_month_start, current_month_start - 1µs]`,
two months ago `[two_months_ago_start, last_month_start - 1µs]`. -/
structure ThreeWindows where
  two_months_ago : Window
  last_month : Window
  current_month : Window
deriving DecidableEq, Repr

/-- The Period Resolver: the window computation of `main`
(`src/main.py` lines 111-127).  `today.replace(day=1, ...)` is
`monthStartNano p`; `- pd.DateOffset(months=1)` on a first-of-month
instant lands on the first of the previous month (`prevMonth`); the
`.replace(hour=0, minute=0, second=0, microsecond=0)` calls are no-ops on
first-of-month midnights. -/
def resolveWindows (p : YM) : ThreeWindows :=
  let current_month_start := monthStartNano p
  let next_month := monthStartNano (nextMonthStart p)
  let current_month_end := next_month - 1000
  let last_month_start := monthStartNano (prevMonth p)
  let last_month_end := current_month_start - 1000
  let two_months_ago_start := monthStartNano (prevMonth (prevMonth p))
  let two_months_ago_end := last_month_start - 1000
  { two_months_ago := ⟨two_months_ago_start, two_months_ago_end⟩
    last_month := ⟨last_month_start, last_month_end⟩
    current_month := ⟨current_month_start, current_month_end⟩ }

/-! ## Data model and Metrics Engine -/

/-- One row of the uploaded report after parsing: columns
`Created  date` (a nanosecond instant after `pd.to_datetime`),
`Shipment ID`, `Shipped quantity `, `Received quantity ` (numeric, may be
fractional in the source file) and `Status`. -/
structure Row where
  created : ℤ
  shipment_id : String
  shipped : ℚ
  received : ℚ
  status : String
deriving DecidableEq, Repr

/-- The record returned by `calculate_metrics` (`src/main.py` 48-55). -/
structure PeriodMetrics where
  total_units_sent : ℤ
  total_units_received : ℤ
  open_shipments : ℕ
  total_units_in_os : ℤ
  units_received_os : ℤ
  units_not_received_os : ℤ
deriving DecidableEq, Repr

/-- Python's `int()` on a rational: truncation toward zero
(floor for non-negative values, ceiling for negative ones). -/
def pyInt (q : ℚ) : ℤ := if 0 ≤ q then ⌊q⌋ else ⌈q⌉

/-- The period filter mask of `calculate_metrics` (`src/main.py` line 17):
`(df['Created  date'] >= start_date) & (df['Created  date'] <= end_date)`.
Both bounds inclusive. -/
def rowsInPeriod (rows : List Row) (start_date end_date : ℤ) : List Row :=
  rows.filter (fun r => decide (start_date ≤ r.created) && decide (r.created ≤ end_date))

/-- One row of `shipment_totals` (`src/main.py` lines 32-36): per
`Shipment ID`, the sums of the two quantity columns over the period rows.
(The source also aggregates `Status` into a `set`, which no later code
reads; that dead column is omitted here.) -/
structure ShipmentTotal where
  id : String
  shipped : ℚ
  received : ℚ
deriving DecidableEq, Repr

/-- `groupby('Shipment ID').agg(sum, sum)` (`src/main.py` lines 32-36):
one `ShipmentTotal` per distinct id, with the quantity sums over the rows
carrying that id.  (pandas orders groups by sorted key; every claim is
invariant under group order, and we enumerate keys in first-occurrence
order via `dedup`.) -/
def groupTotals (period : List Row) : List ShipmentTotal :=
  ((period.map Row.shipment_id).dedup).map (fun i =>
    { id := i
      shipped := (((period.filter (fun r => r.shipment_id == i)).map Row.shipped)).sum
      received := (((period.filter (fun r => r.shipment_id == i)).map Row.received)).sum })

/-- `calculate_metrics` (`src/main.py` lines 14-55). -/
def calculate_metrics (df : List Row) (start_date end_date : ℤ) : PeriodMetrics :=
  let period_df := rowsInPeriod df start_date end_date
  if period_df.isEmpty then
    { total_units_sent := 0, total_units_received := 0, open_shipments := 0
      total_units_in_os := 0, units_received_os := 0, units_not_received_os := 0 }
  else
    let shipment_totals := groupTotals period_df
    let total_units_sent := pyInt ((shipment_totals.map ShipmentTotal.shipped).sum)
    let total_units_received := pyInt ((shipment_totals.map ShipmentTotal.received).sum)
    let open_shipments := shipment_totals.filter (fun t => decide (t.received < t.shipped))
    let total_units_in_os := pyInt ((open_shipments.map ShipmentTotal.shipped).sum)
    let units_received_os := pyInt ((open_shipments.map ShipmentTotal.received).sum)
    { total_units_sent := total_units_sent
      total_units_received := total_units_received
      open_shipments := open_shipments.length
      total_units_in_os := total_units_in_os
      units_received_os := units_received_os
      units_not_received_os := total_units_in_os - units_received_os }

/-! ## Percentage formatting and the report columns -/

/-- The content of a percentage cell: either blank (`''` in the source) or
a number.  For the display table `pct x` stands for the string rendering
of `x` with one decimal and a percent sign; for the export sheet `pct x`
is the raw numeric fraction written into the cell.  The one-decimal
rounding performed by `f-string` formatting is presentation-only and is
not modelled; no claim depends on it. -/
inductive PctCell where
  | blank : PctCell
  | pct : ℚ → PctCell
deriving DecidableEq, Repr

/-- `format_percentage` (`src/main.py` lines 57-66).  `value` is either a
number or the empty string (modelled as `none`). -/
def format_percentage (value : Option ℚ) (total : ℚ) (force_hundred : Bool) : PctCell :=
  match value with
  | none => PctCell.blank
  | some v =>
    if force_hundred ∧ 0 < v then PctCell.pct 100
    else if 0 < total then PctCell.pct (v / total * 100)
    else PctCell.blank

/-- The display table's `'% '` column for the last (most recent complete)
month (`src/main.py` lines 182-189).  The first entry is the literal
string `'100.0%'`. -/
def displayPctLastMonth (m : PeriodMetrics) : List PctCell :=
  [ PctCell.pct 100,
    format_percentage (some m.total_units_received) m.total_units_sent false,
    PctCell.blank,
    format_percentage (some m.total_units_in_os) m.total_units_sent false,
    format_percentage (some m.units_received_os) m.total_units_in_os false,
    format_percentage (some m.units_not_received_os) m.total_units_in_os false ]

/-- The export sheet's `'% '` column for the last month
(`src/main.py` lines 235-242): raw decimal fractions, `1` meaning 100%.
The first entry is the literal `1`. -/
def exportPctLastMonth (m : PeriodMetrics) : List PctCell :=
  [ PctCell.pct 1,
    if 0 < m.total_units_sent then
      PctCell.pct ((m.total_units_received : ℚ) / (m.total_units_sent : ℚ))
    else PctCell.blank,
    PctCell.blank,
    if 0 < m.total_units_in_os then PctCell.pct 1 else PctCell.blank,
    if 0 < m.total_units_in_os then
      PctCell.pct ((m.units_received_os : ℚ) / (m.total_units_in_os : ℚ))
    else PctCell.blank,
    if 0 < m.total_units_in_os then
      PctCell.pct ((m.units_not_received_os : ℚ) / (m.total_units_in_os : ℚ))
    else PctCell.blank ]

/-! ## The per-run pipeline of `main` -/

/-- The three metric records computed in `main` (`src/main.py` 130-132),
in chronological order, for an upload `rows` and the current month `p`. -/
def mainMetrics (rows : List Row) (p : YM) : PeriodMetrics × PeriodMetrics × PeriodMetrics :=
  let w := resolveWindows p
  (calculate_metrics rows w.two_months_ago.start_date w.two_months_ago.end_date,
   calculate_metrics rows w.last_month.start_date w.last_month.end_date,
   calculate_metrics rows w.current_month.start_date w.current_month.end_date)

/-- `total_not_received` (`src/main.py` lines 135-136): the sum of
`units_not_received_os` over the two completed months. -/
def total_not_received (rows : List Row) (p : YM) : ℤ :=
  (mainMetrics rows p).1.units_not_received_os + (mainMetrics rows p).2.1.units_not_received_os

/-- `percentage_not_received` (`src/main.py` lines 137-139): the summary
percentage, with the zero-denominator convention `0` (not blank). -/
def percentage_not_received (rows : List Row) (p : YM) : ℚ :=
  let total_units_in_os : ℤ :=
    (mainMetrics rows p).1.total_units_in_os + (mainMetrics rows p).2.1.total_units_in_os
  if 0 < total_units_in_os then
    (total_not_received rows p : ℚ) / (total_units_in_os : ℚ) * 100
  else 0

/-! ## Calendar lemmas -/

lemma isLeap_iff (y : ℤ) : isLeap y = true ↔ ((y % 4 = 0 ∧ y % 100 ≠ 0) ∨ y % 400 = 0) := by
  simp [isLeap]

lemma daysBeforeYear_succ (y : ℤ) :
    daysBeforeYear (y + 1) = daysBeforeYear y + 365 + (if isLeap y then 1 else 0) := by
  by_cases hl : isLeap y = true
  · rw [hl, if_pos rfl]
    have h := (isLeap_iff y).mp hl
    unfold daysBeforeYear
    omega
  · rw [if_neg (by simpa using hl)]
    have h : ¬ ((y % 4 = 0 ∧ y % 100 ≠ 0) ∨ y % 400 = 0) := fun hc => hl ((isLeap_iff y).mpr hc)
    unfold daysBeforeYear
    omega

lemma prevMonth_valid (p : YM) (h : p.valid) : (prevMonth p).valid := by
  obtain ⟨hy, hm⟩ := h
  unfold prevMonth YM.valid
  split
  · show (1 : ℕ) ≤ 12 ∧ (12 : ℕ) ≤ 12
    norm_num
  · show 1 ≤ p.m - 1 ∧ p.m - 1 ≤ 12
    omega

lemma nextMonthStart_prevMonth (p : YM) (h : p.valid) : nextMonthStart (prevMonth p) = p := by
  obtain ⟨y, m⟩ := p
  obtain ⟨hy, hm⟩ := h
  simp only [YM.valid] at hy hm
  rcases eq_or_ne m 1 with h1 | h1
  · subst h1
    have h2 : prevMonth ⟨y, 1⟩ = ⟨y - 1, 12⟩ := by simp [prevMonth]
    rw [h2]
    have h3 : nextMonthStart ⟨y - 1, 12⟩ = ⟨y - 1 + 1, 1⟩ := by simp [nextMonthStart]
    rw [h3]
    simp only [YM.mk.injEq]
    exact ⟨by omega, trivial⟩
  · have h2 : prevMonth ⟨y, m⟩ = ⟨y, m - 1⟩ := by simp [prevMonth, h1]
    rw [h2]
    have h3 : nextMonthStart ⟨y, m - 1⟩ = ⟨y, m - 1 + 1⟩ := by
      have h4 : m - 1 ≠ 12 := by omega
      simp [nextMonthStart, h4]
    rw [h3]
    simp only [YM.mk.injEq]
    exact ⟨trivial, by omega⟩

lemma daysInMonth_ge (p : YM) : 28 ≤ daysInMonth p := by
  obtain ⟨y, m⟩ := p
  unfold daysInMonth
  split <;> (try split) <;> norm_num

lemma monthStartNano_next (p : YM) (h : p.valid) :
    monthStartNano (nextMonthStart p) = monthStartNano p + nsPerDay * daysInMonth p := by
  obtain ⟨y, m⟩ := p
  obtain ⟨hy, hm⟩ := h
  simp only [YM.valid] at hy hm
  by_cases h12 : m = 12
  · subst h12
    have h3 : nextMonthStart ⟨y, 12⟩ = ⟨y + 1, 1⟩ := by simp [nextMonthStart]
    rw [h3]
    simp only [monthStartNano]
    rw [daysBeforeYear_succ]
    have hd : daysInMonth ⟨y, (12 : ℕ)⟩ = 31 := rfl
    rw [hd]
    by_cases hl : isLeap y = true <;>
      simp [daysBeforeMonth, monthCum, hl] <;> ring
  · have h3 : nextMonthStart ⟨y, m⟩ = ⟨y, m + 1⟩ := by simp [nextMonthStart, h12]
    rw [h3]
    simp only [monthStartNano]
    rw [← mul_add]
    congr 1
    have hm11 : m ≤ 11 := by omega
    have hmain : daysBeforeMonth (isLeap y) (m + 1) =
        daysBeforeMonth (isLeap y) m + daysInMonth ⟨y, m⟩ := by
      interval_cases m <;>
        (by_cases hl : isLeap y = true <;>
          simp [daysBeforeMonth, monthCum, daysInMonth, hl])
    rw [hmain]
    ring

lemma monthStartNano_lt_next (p : YM) (h : p.valid) :
    monthStartNano p < monthStartNano (nextMonthStart p) := by
  rw [monthStartNano_next p h]
  have h1 := daysInMonth_ge p
  have h2 : (0 : ℤ) < nsPerDay := by norm_num [nsPerDay]
  nlinarith

lemma dvd_1000_monthStartNano (p : YM) : (1000 : ℤ) ∣ monthStartNano p := by
  unfold monthStartNano
  exact Dvd.dvd.mul_right (by norm_num [nsPerDay]) _

/-! ## Truncation lemmas -/

lemma pyInt_mono {a b : ℚ} (h : a ≤ b) : pyInt a ≤ pyInt b := by
  unfold pyInt
  split
  · split
    · exact Int.floor_le_floor h
    · exact absurd (le_trans (by assumption) h) (by assumption)
  · split
    · refine le_trans (Int.ceil_le.mpr ?_) (Int.floor_nonneg.mpr (by assumption))
      exact_mod_cast le_of_lt (lt_of_not_ge (by assumption))
    · exact Int.ceil_le_ceil h

lemma pyInt_nonneg {a : ℚ} (h : 0 ≤ a) : 0 ≤ pyInt a := by
  unfold pyInt
  rw [if_pos h]
  exact Int.floor_nonneg.mpr h

/-! ## List summation lemmas -/

lemma sum_map_filter_add {α : Type} (S : List α) (p : α → Bool) (f : α → ℚ) :
    ((S.filter p).map f).sum + ((S.filter (fun r => ! p r)).map f).sum = (S.map f).sum := by
  induction S with
  | nil => simp
  | cons a S ih =>
    by_cases ha : p a <;> simp [List.filter_cons, ha] <;> linarith [ih]

lemma sum_fiberwise (ks : List String) (S : List Row) (f : Row → ℚ)
    (hnd : ks.Nodup) (hcov : ∀ r ∈ S, r.shipment_id ∈ ks) :
    (ks.map (fun k => ((S.filter (fun r => r.shipment_id == k)).map f).sum)).sum
      = (S.map f).sum := by
  induction ks generalizing S with
  | nil =>
    cases S with
    | nil => simp
    | cons a S => exact absurd (hcov a (by simp)) (by simp)
  | cons k ks ih =>
    rw [List.nodup_cons] at hnd
    obtain ⟨hk, hnd2⟩ := hnd
    have hstep : ∀ k' ∈ ks, (S.filter (fun r => r.shipment_id == k')) =
        ((S.filter (fun r => ! (r.shipment_id == k))).filter (fun r => r.shipment_id == k')) := by
      intro k' hk'
      rw [List.filter_filter]
      apply List.filter_congr
      intro r hr
      have hne : k' ≠ k := fun hc => hk (hc ▸ hk')
      by_cases hrk : r.shipment_id == k'
      · have h1 : r.shipment_id = k' := by simpa using hrk
        have h2 : ¬ (r.shipment_id == k) = true := by simp [h1, hne]
        simp [hrk, h2]
      · simp [hrk]
    have hmapeq : (ks.map (fun k' => ((S.filter (fun r => r.shipment_id == k')).map f).sum)) =
        (ks.map (fun k' =>
          (((S.filter (fun r => ! (r.shipment_id == k))).filter
            (fun r => r.shipment_id == k')).map f).sum)) := by
      apply List.map_congr_left
      intro k' hk'
      rw [hstep k' hk']
    rw [List.map_cons, List.sum_cons, hmapeq,
      ih (S.filter (fun r => ! (r.shipment_id == k))) hnd2 ?_]
    · exact sum_map_filter_add S (fun r => r.shipment_id == k) f
    · intro r hr
      rw [List.mem_filter] at hr
      have h1 := hcov r hr.1
      have h2 : ¬ (r.shipment_id = k) := by
        intro hc
        have := hr.2
        simp [hc] at this
      simpa [h2] using h1

lemma groupTotals_sum_shipped (period : List Row) :
    ((groupTotals period).map ShipmentTotal.shipped).sum = (period.map Row.shipped).sum := by
  unfold groupTotals
  rw [List.map_map]
  exact sum_fiberwise _ _ _ (List.nodup_dedup _)
    (fun r hr => List.mem_dedup.mpr (List.mem_map_of_mem _ hr))

lemma groupTotals_sum_received (period : List Row) :
    ((groupTotals period).map ShipmentTotal.received).sum = (period.map Row.received).sum := by
  unfold groupTotals
  rw [List.map_map]
  exact sum_fiberwise _ _ _ (List.nodup_dedup _)
    (fun r hr => List.mem_dedup.mpr (List.mem_map_of_mem _ hr))

/-! ## Metrics lemmas -/

/-- Rewrite of a row's `Status` field, leaving every other column as is. -/
def setStatus (f : Row → String) (r : Row) : Row :=
  { r with status := f r }

lemma rowsInPeriod_map_setStatus (f : Row → String) (rows : List Row) (s e : ℤ) :
    rowsInPeriod (rows.map (setStatus f)) s e = (rowsInPeriod rows s e).map (setStatus f) := by
  unfold rowsInPeriod
  rw [List.filter_map]
  rfl

lemma groupTotals_map_setStatus (f : Row → String) (period : List Row) :
    groupTotals (period.map (setStatus f)) = groupTotals period := by
  unfold groupTotals
  have hids : (period.map (setStatus f)).map Row.shipment_id = period.map Row.shipment_id := by
    rw [List.map_map]
    rfl
  rw [hids]
  apply List.map_congr_left
  intro i _
  have hfil : (period.map (setStatus f)).filter (fun r => r.shipment_id == i) =
      (period.filter (fun r => r.shipment_id == i)).map (setStatus f) := by
    rw [List.filter_map]
    rfl
  rw [hfil]
  simp only [List.map_map]
  rfl

lemma list_isEmpty_map {α β : Type} (g : α → β) (l : List α) :
    (l.map g).isEmpty = l.isEmpty := by
  cases l <;> rfl

lemma calculate_metrics_map_setStatus (f : Row → String) (rows : List Row) (s e : ℤ) :
    calculate_metrics (rows.map (setStatus f)) s e = calculate_metrics rows s e := by
  simp only [calculate_metrics]
  rw [rowsInPeriod_map_setStatus, list_isEmpty_map, groupTotals_map_setStatus]

lemma calculate_metrics_congr (rows1 rows2 : List Row) (s e : ℤ)
    (h : rowsInPeriod rows1 s e = rowsInPeriod rows2 s e) :
    calculate_metrics rows1 s e = calculate_metrics rows2 s e := by
  unfold calculate_metrics
  rw [h]

lemma calculate_metrics_of_empty (rows : List Row) (s e : ℤ)
    (h : rowsInPeriod rows s e = []) :
    calculate_metrics rows s e = ⟨0, 0, 0, 0, 0, 0⟩ := by
  unfold calculate_metrics
  rw [h]
  rfl

lemma calculate_metrics_of_nonempty (rows : List Row) (s e : ℤ)
    (h : rowsInPeriod rows s e ≠ []) :
    calculate_metrics rows s e =
      { total_units_sent :=
          pyInt (((groupTotals (rowsInPeriod rows s e)).map ShipmentTotal.shipped).sum)
        total_units_received :=
          pyInt (((groupTotals (rowsInPeriod rows s e)).map ShipmentTotal.received).sum)
        open_shipments :=
          ((groupTotals (rowsInPeriod rows s e)).filter
            (fun t => decide (t.received < t.shipped))).length
        total_units_in_os :=
          pyInt ((((groupTotals (rowsInPeriod rows s e)).filter
            (fun t => decide (t.received < t.shipped))).map ShipmentTotal.shipped).sum)
        units_received_os :=
          pyInt ((((groupTotals (rowsInPeriod rows s e)).filter
            (fun t => decide (t.received < t.shipped))).map ShipmentTotal.received).sum)
        units_not_received_os :=
          pyInt ((((groupTotals (rowsInPeriod rows s e)).filter
            (fun t => decide (t.received < t.shipped))).map ShipmentTotal.shipped).sum) -
          pyInt ((((groupTotals (rowsInPeriod rows s e)).filter
            (fun t => decide (t.received < t.shipped))).map ShipmentTotal.received).sum) } := by
  simp only [calculate_metrics]
  rw [if_neg (by simpa [List.isEmpty_iff] using h)]

lemma rowsInPeriod_append_out (rows : List Row) (r : Row) (s e : ℤ)
    (h : ¬ (s ≤ r.created ∧ r.created ≤ e)) :
    rowsInPeriod (rows ++ [r]) s e = rowsInPeriod rows s e := by
  unfold rowsInPeriod
  rw [List.filter_append]
  have hb : (decide (s ≤ r.created) && decide (r.created ≤ e)) = false := by
    by_cases h1 : s ≤ r.created
    · have h2 : ¬ r.created ≤ e := fun h2 => h ⟨h1, h2⟩
      simp [h1, h2]
    · simp [h1]
  simp [List.filter_cons, hb]

lemma monthStartNano_prev_lt (p : YM) (h : p.valid) :
    monthStartNano (prevMonth p) < monthStartNano p := by
  have h1 := monthStartNano_lt_next (prevMonth p) (prevMonth_valid p h)
  rwa [nextMonthStart_prevMonth p h] at h1

/-! ## Claim theorems -/

/-- C3: the open/closed classification of a shipment is a pure function of
its aggregated shipped and received sums within the window (open iff the
received sum is strictly below the shipped sum) and never depends on the
status string: rewriting every row's status arbitrarily leaves the whole
metric record unchanged; a shipment with status "Closed" but aggregated
received < shipped is classified open; and one with received equal to
shipped (shipped 50, received 50) is classified closed, contributing to
the overall unit totals but to no open-shipment metric. -/
theorem c3_open_classification :
    (∀ (f : Row → String) (rows : List Row) (s e : ℤ),
      calculate_metrics (rows.map (setStatus f)) s e = calculate_metrics rows s e) ∧
    (∀ (rows : List Row) (s e : ℤ),
      (calculate_metrics rows s e).open_shipments =
        ((groupTotals (rowsInPeriod rows s e)).filter
          (fun t => decide (t.received < t.shipped))).length) ∧
    (calculate_metrics [⟨5, "S1", 50, 20, "Closed"⟩] 0 10).open_shipments = 1 ∧
    calculate_metrics [⟨5, "S1", 50, 50, "Receiving"⟩] 0 10 = ⟨50, 50, 0, 0, 0, 0⟩ := by
  refine ⟨calculate_metrics_map_setStatus, ?_, ?_, ?_⟩
  · intro rows s e
    by_cases h : rowsInPeriod rows s e = []
    · rw [calculate_metrics_of_empty rows s e h, h]
      simp [groupTotals]
    · rw [calculate_metrics_of_nonempty rows s e h]
  · norm_num [calculate_metrics, rowsInPeriod, groupTotals, pyInt, List.filter]
  · norm_num [calculate_metrics, rowsInPeriod, groupTotals, pyInt, List.filter]

/-- C4: inside one window the computation groups rows by shipment id,
including every in-window row in exactly one group (so the per-group sums
redistribute the whole window's quantities), and on the concrete input
rows `[(S1, shipped 100, received 40), (S1, shipped 0, received 20)]` it
produces the single open aggregate (shipped 100, received 60) with
`total_units_in_os = 100`, `units_received_os = 60`,
`units_not_received_os = 40`. -/
theorem c4_grouping :
    (∀ (rows : List Row) (s e : ℤ),
      ((groupTotals (rowsInPeriod rows s e)).map ShipmentTotal.shipped).sum
        = ((rowsInPeriod rows s e).map Row.shipped).sum ∧
      ((groupTotals (rowsInPeriod rows s e)).map ShipmentTotal.received).sum
        = ((rowsInPeriod rows s e).map Row.received).sum) ∧
    groupTotals (rowsInPeriod
        [⟨5, "S1", 100, 40, "Receiving"⟩, ⟨6, "S1", 0, 20, "Receiving"⟩] 0 10) =
      [⟨"S1", 100, 60⟩] ∧
    calculate_metrics [⟨5, "S1", 100, 40, "Receiving"⟩, ⟨6, "S1", 0, 20, "Receiving"⟩] 0 10 =
      ⟨100, 60, 1, 100, 60, 40⟩ := by
  refine ⟨fun rows s e => ⟨groupTotals_sum_shipped _, groupTotals_sum_received _⟩, ?_, ?_⟩
  · norm_num [rowsInPeriod, groupTotals, List.filter]
  · norm_num [calculate_metrics, rowsInPeriod, groupTotals, pyInt, List.filter]

/-- C5: a window with zero matching rows (in particular an entirely empty
upload) yields the all-zero metric record; the computation is total and
raises nothing. -/
theorem c5_empty_period (rows : List Row) (s e : ℤ)
    (h : rowsInPeriod rows s e = []) :
    calculate_metrics rows s e = ⟨0, 0, 0, 0, 0, 0⟩ :=
  calculate_metrics_of_empty rows s e h

/-- Witness for C5 at the empty upload. -/
theorem c5_empty_period_witness :
    rowsInPeriod [] 0 0 = [] ∧ calculate_metrics [] 0 0 = ⟨0, 0, 0, 0, 0, 0⟩ :=
  ⟨rfl, c5_empty_period [] 0 0 rfl⟩

/-- C6: the returned metrics always satisfy
`units_not_received_os = total_units_in_os - units_received_os`, and
(given non-negative row quantities — in fact unconditionally) the
difference is non-negative, equivalently
`units_received_os ≤ total_units_in_os`. -/
theorem c6_not_received_invariant (rows : List Row) (s e : ℤ) :
    (calculate_metrics rows s e).units_not_received_os =
      (calculate_metrics rows s e).total_units_in_os -
        (calculate_metrics rows s e).units_received_os ∧
    ((∀ r ∈ rows, 0 ≤ r.shipped ∧ 0 ≤ r.received) →
      0 ≤ (calculate_metrics rows s e).units_not_received_os ∧
      (calculate_metrics rows s e).units_received_os ≤
        (calculate_metrics rows s e).total_units_in_os) := by
  by_cases h : rowsInPeriod rows s e = []
  · rw [calculate_metrics_of_empty rows s e h]
    exact ⟨by norm_num, fun _ => ⟨le_refl 0, le_refl 0⟩⟩
  · rw [calculate_metrics_of_nonempty rows s e h]
    have hle : pyInt ((((groupTotals (rowsInPeriod rows s e)).filter
          (fun t => decide (t.received < t.shipped))).map ShipmentTotal.received).sum) ≤
        pyInt ((((groupTotals (rowsInPeriod rows s e)).filter
          (fun t => decide (t.received < t.shipped))).map ShipmentTotal.shipped).sum) := by
      apply pyInt_mono
      apply List.sum_le_sum
      intro t ht
      rw [List.mem_filter] at ht
      exact le_of_lt (of_decide_eq_true ht.2)
    exact ⟨rfl, fun _ => ⟨sub_nonneg.mpr hle, hle⟩⟩

/-- Witness for C6 on a one-row upload with non-negative quantities. -/
theorem c6_not_received_invariant_witness :
    (∀ r ∈ [(⟨5, "S1", 50, 20, "Closed"⟩ : Row)], 0 ≤ r.shipped ∧ 0 ≤ r.received) ∧
    0 ≤ (calculate_metrics [⟨5, "S1", 50, 20, "Closed"⟩] 0 10).units_not_received_os := by
  have hq : ∀ r ∈ [(⟨5, "S1", 50, 20, "Closed"⟩ : Row)], 0 ≤ r.shipped ∧ 0 ≤ r.received := by
    intro r hr
    rw [List.mem_singleton] at hr
    subst hr
    norm_num
  exact ⟨hq, ((c6_not_received_invariant [⟨5, "S1", 50, 20, "Closed"⟩] 0 10).2 hq).1⟩

/-- C7: `format_percentage` returns the ratio `value/total` (as a
percentage) exactly when `total > 0`, and a blank cell when `total = 0`:
it never divides by a zero denominator, never renders any numeric cell
(such as 0%) for a zero denominator, and is a total function; the export
sheet's inline conditional ratio cells follow the same policy, writing a
blank (never 0 or a fault) when their denominator is zero. -/
theorem c7_ratio_policy (v t : ℚ) :
    (0 < t → format_percentage (some v) t false = PctCell.pct (v / t * 100)) ∧
    (t = 0 → format_percentage (some v) t false = PctCell.blank) ∧
    (t = 0 → ∀ q : ℚ, format_percentage (some v) t false ≠ PctCell.pct q) ∧
    format_percentage none t false = PctCell.blank ∧
    (∀ m : PeriodMetrics, m.total_units_in_os = 0 →
      (exportPctLastMonth m)[4]? = some PctCell.blank ∧
      (exportPctLastMonth m)[5]? = some PctCell.blank) ∧
    (∀ m : PeriodMetrics, 0 < m.total_units_in_os →
      (exportPctLastMonth m)[4]? =
        some (PctCell.pct ((m.units_received_os : ℚ) / (m.total_units_in_os : ℚ)))) := by
  refine ⟨?_, ?_, ?_, rfl, ?_, ?_⟩
  · intro h
    simp [format_percentage, h]
  · intro h
    subst h
    simp [format_percentage]
  · intro h q
    subst h
    simp [format_percentage]
  · intro m hm
    constructor <;> simp [exportPctLastMonth, hm]
  · intro m hm
    simp [exportPctLastMonth, hm]

/-- Witness for C7 at `value = 3` with `total = 4` and `total = 0`. -/
theorem c7_ratio_policy_witness :
    format_percentage (some 3) 4 false = PctCell.pct (3 / 4 * 100) ∧
    format_percentage (some 3) 0 false = PctCell.blank :=
  ⟨(c7_ratio_policy 3 4).1 (by norm_num), (c7_ratio_policy 3 0).2.1 rfl⟩

/-- C9 counterexample: on an empty upload the last month's
`total_units_sent` is zero, yet the export sheet still writes the numeric
value 1 (and the display table the literal '100.0%') into the reference
total's percentage cell — the claim's "not produced when the reference
total is zero" fails on the code. -/
theorem c9_counterexample :
    (calculate_metrics [] 0 0).total_units_sent = 0 ∧
    (exportPctLastMonth (calculate_metrics [] 0 0))[0]? = some (PctCell.pct 1) ∧
    (displayPctLastMonth (calculate_metrics [] 0 0))[0]? = some (PctCell.pct 100) :=
  ⟨rfl, rfl, rfl⟩

/-- C9 (amended): the reference total's percentage cell (row 0 of the
last month's percentage column) is pinned at exactly 100% — numeric 1 in
the export, '100.0%' in the display — unconditionally, hence in
particular whenever the reference total is positive, but also when it is
zero; the positivity-guarded pinning (1 when positive, blank otherwise)
is applied instead to the `total_units_in_os` reference cell (row 3). -/
theorem c9_reference_total_pinned (m : PeriodMetrics) :
    (exportPctLastMonth m)[0]? = some (PctCell.pct 1) ∧
    (displayPctLastMonth m)[0]? = some (PctCell.pct 100) ∧
    (exportPctLastMonth m)[3]? =
      some (if 0 < m.total_units_in_os then PctCell.pct 1 else PctCell.blank) :=
  ⟨rfl, rfl, rfl⟩

/-- C10: the reported unit totals are truncated (via `int()`) only after
summation, while the open/closed partition is decided on the untruncated
per-shipment sums: for the rows `[(S1, 0.6, 0.6), (S1, 0.6, 0.5)]` the
aggregated sums are shipped 1.2 and received 1.1, whose truncations are
both 1 — equal — yet the shipment is counted open; and truncating each
row before summation would have produced 0, not the reported 1. -/
theorem c10_truncation_after_summation :
    (calculate_metrics
        [⟨5, "S1", 6 / 10, 6 / 10, "Receiving"⟩, ⟨6, "S1", 6 / 10, 5 / 10, "Receiving"⟩]
        0 10).open_shipments = 1 ∧
    (calculate_metrics
        [⟨5, "S1", 6 / 10, 6 / 10, "Receiving"⟩, ⟨6, "S1", 6 / 10, 5 / 10, "Receiving"⟩]
        0 10).total_units_sent = 1 ∧
    (calculate_metrics
        [⟨5, "S1", 6 / 10, 6 / 10, "Receiving"⟩, ⟨6, "S1", 6 / 10, 5 / 10, "Receiving"⟩]
        0 10).units_received_os = 1 ∧
    pyInt (6 / 10 + 6 / 10) = pyInt (6 / 10 + 5 / 10) ∧
    pyInt (6 / 10) + pyInt (6 / 10) = 0 := by
  refine ⟨?_, ?_, ?_, ?_, ?_⟩ <;>
    norm_num [calculate_metrics, rowsInPeriod, groupTotals, pyInt, List.filter]

/-- C1 counterexample: for January 2024 as the current month, a row whose
creation instant is one nanosecond before the first instant of February
satisfies the claim's half-open criterion
`start ≤ created < first-instant-of-next-month`, yet the implementation's
filter excludes it: the code masks with `created <= end_date` where
`end_date` is the first instant of the next month minus one microsecond,
not the claimed exclusive next-month bound. -/
theorem c1_counterexample :
    ((resolveWindows ⟨2024, 1⟩).current_month.start_date ≤ monthStartNano ⟨2024, 2⟩ - 1 ∧
      monthStartNano ⟨2024, 2⟩ - 1 < monthStartNano (nextMonthStart ⟨2024, 1⟩)) ∧
    rowsInPeriod [⟨monthStartNano ⟨2024, 2⟩ - 1, "S1", 1, 0, "In transit"⟩]
      (resolveWindows ⟨2024, 1⟩).current_month.start_date
      (resolveWindows ⟨2024, 1⟩).current_month.end_date = [] := by
  decide

/-- C1 (amended): a row is included in a window's metrics computation iff
`window.start ≤ created ≤ window.end`, where `window.end` is the first
instant of the following month minus one microsecond (both bounds
inclusive); for timestamps of microsecond or coarser granularity this
coincides with the claimed half-open bound `created <
first-instant-of-next-month`, but sub-microsecond timestamps inside the
month's final microsecond are excluded. -/
theorem c1_filter_bounds (p : YM) (rows : List Row) (r : Row) :
    (r ∈ rowsInPeriod rows (resolveWindows p).current_month.start_date
        (resolveWindows p).current_month.end_date ↔
      r ∈ rows ∧ (resolveWindows p).current_month.start_date ≤ r.created ∧
        r.created ≤ monthStartNano (nextMonthStart p) - 1000) ∧
    ((1000 : ℤ) ∣ r.created →
      (r ∈ rowsInPeriod rows (resolveWindows p).current_month.start_date
          (resolveWindows p).current_month.end_date ↔
        r ∈ rows ∧ (resolveWindows p).current_month.start_date ≤ r.created ∧
          r.created < monthStartNano (nextMonthStart p))) := by
  have hmem : r ∈ rowsInPeriod rows (resolveWindows p).current_month.start_date
      (resolveWindows p).current_month.end_date ↔
      r ∈ rows ∧ (resolveWindows p).current_month.start_date ≤ r.created ∧
        r.created ≤ monthStartNano (nextMonthStart p) - 1000 := by
    unfold rowsInPeriod
    rw [List.mem_filter]
    simp [resolveWindows, and_assoc]
  refine ⟨hmem, fun hdvd => ?_⟩
  rw [hmem]
  have hM := dvd_1000_monthStartNano (nextMonthStart p)
  constructor
  · rintro ⟨h1, h2, h3⟩
    exact ⟨h1, h2, by omega⟩
  · rintro ⟨h1, h2, h3⟩
    exact ⟨h1, h2, by omega⟩

/-- Witness for C1 (amended): a microsecond-aligned row at the first
instant of January 2024 is accepted by the filter. -/
theorem c1_filter_bounds_witness :
    (⟨monthStartNano ⟨2024, 1⟩, "S1", 1, 0, "In transit"⟩ : Row) ∈
      rowsInPeriod [⟨monthStartNano ⟨2024, 1⟩, "S1", 1, 0, "In transit"⟩]
        (resolveWindows ⟨2024, 1⟩).current_month.start_date
        (resolveWindows ⟨2024, 1⟩).current_month.end_date :=
  ((c1_filter_bounds ⟨2024, 1⟩ _ _).2 (dvd_1000_monthStartNano ⟨2024, 1⟩)).mpr
    ⟨by decide, by decide, by decide⟩

/-- C2 counterexample: for January 2024 as the current month, the end of
the two-months-ago window is not equal to the start of the last-month
window (it is one microsecond earlier). -/
theorem c2_counterexample :
    (resolveWindows ⟨2024, 1⟩).two_months_ago.end_date ≠
      (resolveWindows ⟨2024, 1⟩).last_month.start_date := by
  decide

/-- C2 (amended): the Period Resolver produces exactly three windows (two
months ago, last month, current month) such that each adjacent pair
satisfies `window[i].end + 1µs = window[i+1].start` (one microsecond
short of the claimed equality), each window runs from the first instant
of its calendar month to one microsecond before the first instant of the
next month (agreeing with `get_month_start_end` of that month, hence
spanning exactly one calendar month minus the trailing microsecond), with
correct December-to-January year rollover, and the windows are
non-overlapping and strictly ordered. -/
theorem c2_windows (p : YM) (h : p.valid) :
    ((resolveWindows p).two_months_ago.end_date + 1000 =
        (resolveWindows p).last_month.start_date ∧
      (resolveWindows p).last_month.end_date + 1000 =
        (resolveWindows p).current_month.start_date) ∧
    (((resolveWindows p).two_months_ago.start_date,
        (resolveWindows p).two_months_ago.end_date) =
          get_month_start_end (prevMonth (prevMonth p)) ∧
      ((resolveWindows p).last_month.start_date,
        (resolveWindows p).last_month.end_date) = get_month_start_end (prevMonth p) ∧
      ((resolveWindows p).current_month.start_date,
        (resolveWindows p).current_month.end_date) = get_month_start_end p) ∧
    ((resolveWindows p).two_months_ago.end_date -
        (resolveWindows p).two_months_ago.start_date =
          nsPerDay * daysInMonth (prevMonth (prevMonth p)) - 1000 ∧
      (resolveWindows p).last_month.end_date - (resolveWindows p).last_month.start_date =
        nsPerDay * daysInMonth (prevMonth p) - 1000 ∧
      (resolveWindows p).current_month.end_date -
        (resolveWindows p).current_month.start_date = nsPerDay * daysInMonth p - 1000) ∧
    ((resolveWindows p).two_months_ago.start_date ≤
        (resolveWindows p).two_months_ago.end_date ∧
      (resolveWindows p).two_months_ago.end_date <
        (resolveWindows p).last_month.start_date ∧
      (resolveWindows p).last_month.start_date ≤ (resolveWindows p).last_month.end_date ∧
      (resolveWindows p).last_month.end_date < (resolveWindows p).current_month.start_date ∧
      (resolveWindows p).current_month.start_date ≤
        (resolveWindows p).current_month.end_date) := by
  have hpv : (prevMonth p).valid := prevMonth_valid p h
  have hppv : (prevMonth (prevMonth p)).valid := prevMonth_valid _ hpv
  have hnp : nextMonthStart (prevMonth p) = p := nextMonthStart_prevMonth p h
  have hnpp : nextMonthStart (prevMonth (prevMonth p)) = prevMonth p :=
    nextMonthStart_prevMonth _ hpv
  have e1 : monthStartNano (prevMonth p) =
      monthStartNano (prevMonth (prevMonth p)) +
        nsPerDay * daysInMonth (prevMonth (prevMonth p)) := by
    have h1 := monthStartNano_next _ hppv
    rwa [hnpp] at h1
  have e2 : monthStartNano p =
      monthStartNano (prevMonth p) + nsPerDay * daysInMonth (prevMonth p) := by
    have h1 := monthStartNano_next _ hpv
    rwa [hnp] at h1
  have e3 := monthStartNano_next p h
  have hd : ∀ q : YM, 1000 < nsPerDay * daysInMonth q := by
    intro q
    have h28 : nsPerDay * 28 ≤ nsPerDay * daysInMonth q :=
      mul_le_mul_of_nonneg_left (daysInMonth_ge q) (by norm_num [nsPerDay])
    have h29 : (1000 : ℤ) < nsPerDay * 28 := by norm_num [nsPerDay]
    linarith
  refine ⟨⟨?_, ?_⟩, ⟨?_, ?_, ?_⟩, ⟨?_, ?_, ?_⟩, ?_, ?_, ?_, ?_, ?_⟩
  · show monthStartNano (prevMonth p) - 1000 + 1000 = monthStartNano (prevMonth p)
    ring
  · show monthStartNano p - 1000 + 1000 = monthStartNano p
    ring
  · show (monthStartNano (prevMonth (prevMonth p)), monthStartNano (prevMonth p) - 1000) =
      get_month_start_end (prevMonth (prevMonth p))
    simp only [get_month_start_end, hnpp]
  · show (monthStartNano (prevMonth p), monthStartNano p - 1000) =
      get_month_start_end (prevMonth p)
    simp only [get_month_start_end, hnp]
  · rfl
  · show monthStartNano (prevMonth p) - 1000 - monthStartNano (prevMonth (prevMonth p)) =
      nsPerDay * daysInMonth (prevMonth (prevMonth p)) - 1000
    linarith
  · show monthStartNano p - 1000 - monthStartNano (prevMonth p) =
      nsPerDay * daysInMonth (prevMonth p) - 1000
    linarith
  · show monthStartNano (nextMonthStart p) - 1000 - monthStartNano p =
      nsPerDay * daysInMonth p - 1000
    linarith
  · show monthStartNano (prevMonth (prevMonth p)) ≤ monthStartNano (prevMonth p) - 1000
    have h1 := hd (prevMonth (prevMonth p))
    linarith
  · show monthStartNano (prevMonth p) - 1000 < monthStartNano (prevMonth p)
    linarith
  · show monthStartNano (prevMonth p) ≤ monthStartNano p - 1000
    have h1 := hd (prevMonth p)
    linarith
  · show monthStartNano p - 1000 < monthStartNano p
    linarith
  · show monthStartNano p ≤ monthStartNano (nextMonthStart p) - 1000
    have h1 := hd p
    linarith

/-- Witness for C2 (amended) across the December 2023 → January 2024
year rollover. -/
theorem c2_windows_witness :
    (⟨2024, 1⟩ : YM).valid ∧
    (resolveWindows ⟨2024, 1⟩).two_months_ago.end_date + 1000 =
      (resolveWindows ⟨2024, 1⟩).last_month.start_date :=
  ⟨by decide, (c2_windows ⟨2024, 1⟩ (by decide)).1.1⟩

/-- C8: the summary figure `total_not_received` is the sum of
`units_not_received_os` over exactly the two completed (non-current)
months — rows falling in the current-month window do not affect it or its
percentage — and `percentage_not_received` equals that sum divided by the
sum of `total_units_in_os` over the same two months (times 100), with the
numeric value 0 (not a blank cell) when that denominator is zero, a
policy distinct from the per-cell blank-on-zero rule of
`format_percentage`. -/
theorem c8_summary (rows : List Row) (p : YM) (h : p.valid) (r : Row)
    (hr : (resolveWindows p).current_month.start_date ≤ r.created ∧
      r.created ≤ (resolveWindows p).current_month.end_date) :
    total_not_received (rows ++ [r]) p = total_not_received rows p ∧
    percentage_not_received (rows ++ [r]) p = percentage_not_received rows p ∧
    total_not_received rows p =
      (mainMetrics rows p).1.units_not_received_os +
        (mainMetrics rows p).2.1.units_not_received_os ∧
    ((mainMetrics rows p).1.total_units_in_os +
        (mainMetrics rows p).2.1.total_units_in_os = 0 →
      percentage_not_received rows p = 0) ∧
    (0 < (mainMetrics rows p).1.total_units_in_os +
        (mainMetrics rows p).2.1.total_units_in_os →
      percentage_not_received rows p =
        (total_not_received rows p : ℚ) /
          (((mainMetrics rows p).1.total_units_in_os +
            (mainMetrics rows p).2.1.total_units_in_os : ℤ) : ℚ) * 100) := by
  have hlt := monthStartNano_prev_lt p h
  have hcs : monthStartNano p ≤ r.created := hr.1
  have hout2 : ¬ ((resolveWindows p).two_months_ago.start_date ≤ r.created ∧
      r.created ≤ (resolveWindows p).two_months_ago.end_date) := by
    intro hc
    have h2 : r.created ≤ monthStartNano (prevMonth p) - 1000 := hc.2
    linarith
  have houtl : ¬ ((resolveWindows p).last_month.start_date ≤ r.created ∧
      r.created ≤ (resolveWindows p).last_month.end_date) := by
    intro hc
    have h2 : r.created ≤ monthStartNano p - 1000 := hc.2
    linarith
  have hm2 : calculate_metrics (rows ++ [r]) (resolveWindows p).two_months_ago.start_date
      (resolveWindows p).two_months_ago.end_date =
      calculate_metrics rows (resolveWindows p).two_months_ago.start_date
        (resolveWindows p).two_months_ago.end_date :=
    calculate_metrics_congr _ _ _ _ (rowsInPeriod_append_out rows r _ _ hout2)
  have hml : calculate_metrics (rows ++ [r]) (resolveWindows p).last_month.start_date
      (resolveWindows p).last_month.end_date =
      calculate_metrics rows (resolveWindows p).last_month.start_date
        (resolveWindows p).last_month.end_date :=
    calculate_metrics_congr _ _ _ _ (rowsInPeriod_append_out rows r _ _ houtl)
  refine ⟨?_, ?_, rfl, ?_, ?_⟩
  · simp only [total_not_received, mainMetrics]
    rw [hm2, hml]
  · simp only [percentage_not_received, total_not_received, mainMetrics]
    rw [hm2, hml]
  · intro h0
    simp only [percentage_not_received]
    rw [if_neg (by omega)]
  · intro hpos
    simp only [percentage_not_received]
    rw [if_pos hpos]

/-- Witness for C8: adding a current-month row to an empty upload leaves
the two-completed-months summary unchanged. -/
theorem c8_summary_witness :
    total_not_received
        ([] ++ [⟨monthStartNano ⟨2024, 5⟩, "S1", 1, 0, "In transit"⟩]) ⟨2024, 5⟩ =
      total_not_received [] ⟨2024, 5⟩ :=
  (c8_summary [] ⟨2024, 5⟩ (by decide) _ ⟨by decide, by decide⟩).1
